import Mathlib

/-!
Shallow embedding of the decorator layer of the playwright-TypeScript
repository (file `src/unnamed/part_008`).  The registration decorators
(`Test`, `testWithData`, `conditionalTest`, `testDecorator`, `testMethod`)
are modelled as pure functions from their configuration to the list of
cases they hand to the external runner's registration API, paired with the
value they return to the class machinery.  The control-flow wrappers
`retry` and `screenshot` are modelled as pure functions from the wrapped
operation's outcome(s) to a trace of their observable actions.

JavaScript strings are modelled as Lean `String`s; the code-unit based
operations `substring`, `length` and `toUpperCase` are modelled on the
underlying character list (`String.data`), which agrees with JavaScript on
the ASCII inputs the repository uses.  JavaScript truthiness on optional
values is modelled explicitly (`truthy`, `jsOrString`).
-/

namespace PlaywrightTS

/-- JavaScript truthiness of an optional boolean: `undefined` and `false`
are falsy, `true` is truthy. -/
def truthy : Option Bool → Bool
  | some b => b
  | none => false

/-- JavaScript `a || b` for an optional string `a` with default `b`:
`undefined` and the empty string are falsy and fall through to `b`. -/
def jsOrString : Option String → String → String
  | some s, d => if s = "" then d else s
  | none, d => d

/-- Model of JavaScript `String.prototype.toUpperCase` (character-wise,
which agrees with JS on ASCII). -/
def toUpperStr (s : String) : String :=
  String.mk (s.data.map Char.toUpper)

/-- Model of JavaScript `str.substring(0, n)`. -/
def jsSubstring (s : String) (n : Nat) : String :=
  String.mk (s.data.take n)

/-- Model of the `data` option of the registration decorators:
`T[] | (() => T[])` (source lines 877, 774). -/
inductive DataSource (α : Type) where
  | static (items : List α)
  | factory (f : Unit → List α)

/-- Resolution of a data source, mirroring
`typeof testData === 'function' ? testData() : testData`
(source lines 784, 928). -/
def DataSource.resolve {α : Type} : DataSource α → List α
  | .static items => items
  | .factory f => f ()

/-- Model of the `skip` option of `Test`:
`boolean | (() => boolean) | ((data?: any) => boolean)` (source line 878).
A function form receives the data item when one exists, `undefined`
(modelled `none`) otherwise. -/
inductive SkipConfig (α : Type) where
  | bool (b : Bool)
  | func (f : Option α → Bool)

/-- The structured configuration object accepted by `Test`
(source lines 872-881). -/
structure StructuredConfig (α : Type) where
  title : Option String := none
  description : Option String := none
  testCaseId : Option String := none
  tags : Option (List String) := none
  data : Option (DataSource α) := none
  skip : Option (SkipConfig α) := none
  timeout : Option Nat := none
  retries : Option Nat := none

/-- The argument of `Test`: a bare string or a structured configuration
(source line 872). -/
inductive TestConfig (α : Type) where
  | str (s : String)
  | obj (c : StructuredConfig α)

/-- The options object handed to the runner's `test` registration call,
built at source lines 902-904 (`if (timeout) ...`, `if (description) ...`,
JavaScript truthiness: `0` and `""` count as absent). -/
structure TestOptions where
  timeout : Option Nat := none
  annotationDescription : Option String := none

/-- What the invocation thunk handed to the runner does when the runner
later executes it: nothing but a log (skipped registration), a call of the
original method with the fixture bag (source line 922-923), or a call of
the original method with the fixture bag followed by the data item
(source lines 945-947). -/
inductive CaseBody (α : Type) where
  | skipNoop
  | callNoData
  | callWithData (d : α)

/-- One case submitted to the external runner's registration API:
its fully resolved title, whether it was registered via `test.skip`,
its invocation thunk, and the options object passed along
(`test.skip` receives no options, source lines 918, 941). -/
structure RegisteredCase (α : Type) where
  title : String
  skipped : Bool
  body : CaseBody α
  opts : Option TestOptions

/-- Execution of a registered case's invocation thunk against the original
method `target` and the runner-supplied fixture bag: `none` means the
original method body is never invoked. -/
def runCase {α Fix ρ : Type} (target : Fix → Option α → ρ) (fixtures : Fix) :
    CaseBody α → Option ρ
  | .skipNoop => none
  | .callNoData => some (target fixtures none)
  | .callWithData d => some (target fixtures (some d))

/-- The `shouldSkip` helper of `Test` (source lines 907-911): absent skip
config is `false`, a boolean is taken as is, a function is applied to the
data item (or to `undefined` for a non-data-driven case). -/
def shouldSkip {α : Type} : Option (SkipConfig α) → Option α → Bool
  | none, _ => false
  | some (.bool b), _ => b
  | some (.func f), d => f d

/-- The `idPrefix` local of `Test` (source line 897):
`testCaseId ? `[${testCaseId}] ` : ''` with JS truthiness. -/
def mkIdPart : Option String → String
  | some id => if id = "" then "" else "[" ++ id ++ "] "
  | none => ""

/-- The `tagString` local of `Test` and `testWithData`
(source lines 898, 790): `tags?.length ? ` [${tags.join(', ')}]` : ''`. -/
def mkTagString : Option (List String) → String
  | some ts => if ts.length = 0 then "" else " [" ++ String.intercalate ", " ts ++ "]"
  | none => ""

/-- The `testOptions` object of `Test` (source lines 902-904). -/
def mkTestOptions (timeout : Option Nat) (description : Option String) : TestOptions :=
  { timeout := match timeout with
      | some t => if t = 0 then none else some t
      | none => none
    annotationDescription := match description with
      | some d => if d = "" then none else some d
      | none => none }

/-- The config-normalisation block of `Test` (source lines 887-894):
a bare string is interpreted as the title with every other option
`undefined`; for an object, `config.title || methodName` resolves the
title. -/
structure ResolvedTestConfig (α : Type) where
  title : String
  description : Option String
  testCaseId : Option String
  tags : Option (List String)
  testData : Option (DataSource α)
  skipConfig : Option (SkipConfig α)
  timeout : Option Nat

/-- Normalisation of the `Test` argument, mirroring source lines 887-894. -/
def resolveConfig {α : Type} (methodName : String) : TestConfig α → ResolvedTestConfig α
  | .str s => ⟨s, none, none, none, none, none, none⟩
  | .obj c => ⟨jsOrString c.title methodName, c.description, c.testCaseId, c.tags,
      c.data, c.skip, c.timeout⟩

/-- The data truncation of `Test` (source lines 933-934):
`dataStr.length > 40 ? `${dataStr.substring(0, 37)}...` : dataStr`. -/
def shortDataStr40 (dataStr : String) : String :=
  if dataStr.length > 40 then jsSubstring dataStr 37 ++ "..." else dataStr

/-- The data truncation of `testWithData` (source lines 792-793):
`dataStr.length > 50 ? `${dataStr.substring(0, 47)}...` : dataStr`. -/
def shortDataStr50 (dataStr : String) : String :=
  if dataStr.length > 50 then jsSubstring dataStr 47 ++ "..." else dataStr

/-- Indexed map, modelling `Array.prototype.forEach((x, index) => ...)`
driven registration loops. -/
def mapWithIndex {α β : Type} (f : Nat → α → β) : Nat → List α → List β
  | _, [] => []
  | i, a :: as => f i a :: mapWithIndex f (i + 1) as

/-- The single (non-data-driven) registration of `Test`
(source lines 913-925). -/
def singleTestCase {α : Type} (baseTitle tagString : String)
    (skipConfig : Option (SkipConfig α)) (opts : TestOptions) : RegisteredCase α :=
  if shouldSkip skipConfig none then
    ⟨baseTitle ++ tagString, true, .skipNoop, none⟩
  else
    ⟨baseTitle ++ tagString, false, .callNoData, some opts⟩

/-- The per-item registration of the data-driven branch of `Test`
(source lines 931-949). -/
def dataTestCase {α : Type} (stringify : α → String) (baseTitle tagString : String)
    (skipConfig : Option (SkipConfig α)) (opts : TestOptions) (n : Nat)
    (index : Nat) (data : α) : RegisteredCase α :=
  let shortDataStr := shortDataStr40 (stringify data)
  let fullTitle := baseTitle ++ " (" ++ toString (index + 1) ++ "/" ++ toString n ++
    "): " ++ shortDataStr ++ tagString
  if shouldSkip skipConfig (some data) then
    ⟨fullTitle, true, .skipNoop, none⟩
  else
    ⟨fullTitle, false, .callWithData data, some opts⟩

/-- The case set registered by the `Test` decorator (source lines 872-951).
`env` is the `NODE_ENV` value, `stringify` models `JSON.stringify` on the
data item type. -/
def TestCases {α : Type} (env methodName : String) (stringify : α → String)
    (config : TestConfig α) : List (RegisteredCase α) :=
  let r := resolveConfig methodName config
  let baseTitle := toUpperStr env ++ ": " ++ mkIdPart r.testCaseId ++ r.title
  let opts := mkTestOptions r.timeout r.description
  match r.testData with
  | none => [singleTestCase baseTitle (mkTagString r.tags) r.skipConfig opts]
  | some src =>
      mapWithIndex
        (dataTestCase stringify baseTitle (mkTagString r.tags) r.skipConfig opts
          src.resolve.length)
        0 src.resolve

/-- The `Test` decorator: registers its cases and returns the original
method unchanged (source line 954 `return target`). -/
def Test {α π : Type} (env methodName : String) (stringify : α → String)
    (config : TestConfig α) (target : π) : List (RegisteredCase α) × π :=
  (TestCases env methodName stringify config, target)

/-- The case set registered by `testWithData` (source lines 773-810). -/
def testWithDataCases {α : Type} (env methodName : String) (stringify : α → String)
    (testData : DataSource α) (title : Option String) (tags : Option (List String))
    (conditionalSkip : Option (α → Bool)) : List (RegisteredCase α) :=
  let resolvedData := testData.resolve
  mapWithIndex
    (fun index data =>
      let baseTitle := jsOrString title methodName
      let tagString := mkTagString tags
      let shortDataStr := shortDataStr50 (stringify data)
      let testTitle := toUpperStr env ++ ": " ++ baseTitle ++ " (" ++
        toString (index + 1) ++ "/" ++ toString resolvedData.length ++ "): " ++
        shortDataStr ++ tagString
      match conditionalSkip with
      | some p =>
          if p data then ⟨testTitle, true, .skipNoop, none⟩
          else ⟨testTitle, false, .callWithData data, none⟩
      | none => ⟨testTitle, false, .callWithData data, none⟩)
    0 resolvedData

/-- The per-item skip evaluation of `testWithData` (source line 799):
`options.conditionalSkip && options.conditionalSkip(data)` — skipped iff a
predicate is present and yields `true` at the item. -/
def twdShouldSkip {α : Type} : Option (α → Bool) → α → Bool
  | some p, d => p d
  | none, _ => false

/-- The `testWithData` decorator: registration plus `return target`
(source line 813). -/
def testWithData {α π : Type} (env methodName : String) (stringify : α → String)
    (testData : DataSource α) (title : Option String) (tags : Option (List String))
    (conditionalSkip : Option (α → Bool)) (target : π) :
    List (RegisteredCase α) × π :=
  (testWithDataCases env methodName stringify testData title tags conditionalSkip, target)

/-- The case registered by `conditionalTest` (source lines 661-684). -/
def conditionalTestCases {α : Type} (env methodName : String) (title : Option String)
    (tags : Option (List String)) (conditionalSkip : Option (Unit → Bool)) :
    List (RegisteredCase α) :=
  let testTitle := match title with
    | some t =>
        if t = "" then toUpperStr env ++ ": " ++ methodName
        else toUpperStr env ++ ": " ++ methodName ++ " - " ++ t
    | none => toUpperStr env ++ ": " ++ methodName
  let fullTitle := testTitle ++ mkTagString tags
  match conditionalSkip with
  | some p =>
      if p () then [⟨fullTitle, true, .skipNoop, none⟩]
      else [⟨fullTitle, false, .callNoData, none⟩]
  | none => [⟨fullTitle, false, .callNoData, none⟩]

/-- The `conditionalTest` decorator: registration plus `return target`
(source line 687). -/
def conditionalTest {α π : Type} (env methodName : String) (title : Option String)
    (tags : Option (List String)) (conditionalSkip : Option (Unit → Bool))
    (target : π) : List (RegisteredCase α) × π :=
  (conditionalTestCases env methodName title tags conditionalSkip, target)

/-- The case registered by `testDecorator` (source lines 582-592). -/
def testDecoratorCases {α : Type} (env methodName : String) (title : Option String) :
    List (RegisteredCase α) :=
  let testTitle := match title with
    | some t =>
        if t = "" then toUpperStr env ++ ": " ++ methodName
        else toUpperStr env ++ ": " ++ methodName ++ " - " ++ t
    | none => toUpperStr env ++ ": " ++ methodName
  [⟨testTitle, false, .callNoData, none⟩]

/-- The `testDecorator` decorator: registration plus `return target`
(source line 595). -/
def testDecorator {α π : Type} (env methodName : String) (title : Option String)
    (target : π) : List (RegisteredCase α) × π :=
  (testDecoratorCases env methodName title, target)

/-- The case registered by `testMethod` (source lines 717-729):
`${env.toUpperCase()}: ${title || methodName}`. -/
def testMethodCases {α : Type} (env methodName title : String) :
    List (RegisteredCase α) :=
  [⟨toUpperStr env ++ ": " ++ jsOrString (some title) methodName, false, .callNoData, none⟩]

/-- The `testMethod` decorator: registration plus `return target`
(source line 732). -/
def testMethod {α π : Type} (env methodName title : String) (target : π) :
    List (RegisteredCase α) × π :=
  (testMethodCases (α := α) env methodName title, target)

/-- The message of the error thrown when the retry budget is exhausted
(source lines 161-163). -/
def retryErrMsg (attempts : Nat) (lastErrMsg : String) : String :=
  "Method failed after " ++ toString attempts ++ " attempts. Last error: " ++ lastErrMsg

/-- Observable trace of one run of the `retry` wrapper: how often the
wrapped operation was invoked, the sequence of inter-attempt delays (each
entry a `setTimeout` duration in ms), and the final outcome
(`Except.ok none` models the `undefined` returned when the loop body never
runs). -/
structure RetryTrace (ρ : Type) where
  invocations : Nat
  delays : List Nat
  outcome : Except String (Option ρ)

/-- The retry loop of `retry` (source lines 152-168), with `fuel` the
number of remaining iterations (`attempts - attempt + 1`); the k-th
invocation of the wrapped operation yields `op k`. -/
def retryGo {ρ : Type} (attempts delay : Nat) (op : Nat → Except String ρ) :
    Nat → Nat → RetryTrace ρ
  | _, 0 => ⟨0, [], Except.ok none⟩
  | attempt, fuel + 1 =>
      match op attempt with
      | .ok v => ⟨1, [], Except.ok (some v)⟩
      | .error e =>
          if fuel = 0 then
            ⟨1, [], Except.error (retryErrMsg attempts e)⟩
          else
            let t := retryGo attempts delay op (attempt + 1) fuel
            ⟨t.invocations + 1, delay :: t.delays, t.outcome⟩

/-- The `retry` wrapper (source lines 145-172): run the loop starting at
attempt 1. -/
def retry {ρ : Type} (attempts delay : Nat) (op : Nat → Except String ρ) :
    RetryTrace ρ :=
  retryGo attempts delay op 1 attempts

/-- The configuration object of the `screenshot` decorator
(source line 298). -/
structure ScreenshotConfig where
  onError : Option Bool := none
  onSuccess : Option Bool := none
  beforeExecution : Option Bool := none
  afterExecution : Option Bool := none
  path : Option String := none

/-- One `page.screenshot` call performed by the wrapper: its target path
and the `fullPage` flag. -/
structure Shot where
  path : String
  fullPage : Bool

/-- The `screenshot` wrapper (source lines 298-344): which captures happen
around one execution of the wrapped method, and the outcome it propagates.
Note the source tests `configOptions.onSuccess` etc. directly, so the
destructured defaults of line 300 never apply. -/
def screenshotRun {ε ρ : Type} (cfg : ScreenshotConfig)
    (className methodName timestamp : String) (target : Except ε ρ) :
    List Shot × Except ε ρ :=
  let basePath := jsOrString cfg.path
    ("screenshots/" ++ className ++ "-" ++ methodName ++ "-" ++ timestamp)
  let pre := if truthy cfg.beforeExecution then [⟨basePath ++ "-before.png", true⟩] else []
  match target with
  | .ok v =>
      (pre ++
        (if truthy cfg.onSuccess || truthy cfg.afterExecution then
          [⟨basePath ++ "-success.png", true⟩]
        else []),
        Except.ok v)
  | .error e =>
      (pre ++
        (if truthy cfg.onError then [⟨basePath ++ "-error.png", true⟩] else []),
        Except.error e)

/-- A 41-character JSON rendering used as a concrete truncation input. -/
def cexDataStr : String := String.mk (List.replicate 41 'a')

/-- A 51-character JSON rendering, longer than both truncation thresholds. -/
def cexDataStr51 : String := String.mk (List.replicate 51 'b')

/-- A wrapped operation that throws on every invocation. -/
def alwaysBoom : Nat → Except String Nat := fun _ => Except.error "boom"

/-! Helper lemmas. -/

theorem mapWithIndex_length {α β : Type} (f : Nat → α → β) :
    ∀ (l : List α) (i : Nat), (mapWithIndex f i l).length = l.length := by
  intro l
  induction l with
  | nil => intro i; rfl
  | cons a as ih => intro i; simp [mapWithIndex, ih]

theorem mapWithIndex_getElem {α β : Type} (f : Nat → α → β) :
    ∀ (l : List α) (i k : Nat),
      (mapWithIndex f i l)[k]? = (l[k]?).map (f (i + k)) := by
  intro l
  induction l with
  | nil => intro i k; simp [mapWithIndex]
  | cons a as ih =>
    intro i k
    cases k with
    | zero => simp [mapWithIndex]
    | succ k' =>
      simp only [mapWithIndex, List.getElem?_cons_succ, ih (i + 1) k']
      have h : i + 1 + k' = i + (k' + 1) := by omega
      rw [h]

theorem strLength_append (a b : String) : (a ++ b).length = a.length + b.length := by
  cases a with
  | mk x =>
    cases b with
    | mk y => exact List.length_append x y

theorem strAppend_assoc (a b c : String) : a ++ b ++ c = a ++ (b ++ c) := by
  cases a with
  | mk x =>
    cases b with
    | mk y =>
      cases c with
      | mk z =>
        show String.mk (x ++ y ++ z) = String.mk (x ++ (y ++ z))
        rw [List.append_assoc]

theorem dataTestCase_skipped {α : Type} (stringify : α → String) (b t : String)
    (sc : Option (SkipConfig α)) (o : TestOptions) (n k : Nat) (d : α) :
    (dataTestCase stringify b t sc o n k d).skipped = shouldSkip sc (some d) := by
  cases hsk : shouldSkip sc (some d) <;> simp [dataTestCase, hsk]

theorem dataTestCase_title {α : Type} (stringify : α → String) (b t : String)
    (sc : Option (SkipConfig α)) (o : TestOptions) (n k : Nat) (d : α) :
    (dataTestCase stringify b t sc o n k d).title =
      b ++ " (" ++ toString (k + 1) ++ "/" ++ toString n ++ "): " ++
        shortDataStr40 (stringify d) ++ t := by
  cases hsk : shouldSkip sc (some d) <;> simp [dataTestCase, hsk]

theorem dataTestCase_body_active {α : Type} (stringify : α → String) (b t : String)
    (sc : Option (SkipConfig α)) (o : TestOptions) (n k : Nat) (d : α)
    (hsk : shouldSkip sc (some d) = false) :
    (dataTestCase stringify b t sc o n k d).body = .callWithData d := by
  simp [dataTestCase, hsk]

theorem dataTestCase_body_skip {α : Type} (stringify : α → String) (b t : String)
    (sc : Option (SkipConfig α)) (o : TestOptions) (n k : Nat) (d : α)
    (hsk : shouldSkip sc (some d) = true) :
    (dataTestCase stringify b t sc o n k d).body = .skipNoop := by
  simp [dataTestCase, hsk]

theorem singleTestCase_skipped {α : Type} (b t : String) (sc : Option (SkipConfig α))
    (o : TestOptions) : (singleTestCase b t sc o).skipped = shouldSkip sc none := by
  cases hsk : shouldSkip sc none <;> simp [singleTestCase, hsk]

theorem singleTestCase_body_active {α : Type} (b t : String) (sc : Option (SkipConfig α))
    (o : TestOptions) (hsk : shouldSkip sc none = false) :
    (singleTestCase b t sc o).body = CaseBody.callNoData := by
  simp [singleTestCase, hsk]

theorem singleTestCase_body_skip {α : Type} (b t : String) (sc : Option (SkipConfig α))
    (o : TestOptions) (hsk : shouldSkip sc none = true) :
    (singleTestCase b t sc o).body = CaseBody.skipNoop := by
  simp [singleTestCase, hsk]

theorem TestCases_nodata {α : Type} (env methodName : String) (stringify : α → String)
    (c : StructuredConfig α) (h : c.data = none) :
    TestCases env methodName stringify (.obj c) =
      [singleTestCase
        (toUpperStr env ++ ": " ++ mkIdPart c.testCaseId ++ jsOrString c.title methodName)
        (mkTagString c.tags) c.skip (mkTestOptions c.timeout c.description)] := by
  simp [TestCases, resolveConfig, h]

theorem TestCases_data_length {α : Type} (env methodName : String)
    (stringify : α → String) (c : StructuredConfig α) (ds : DataSource α)
    (h : c.data = some ds) :
    (TestCases env methodName stringify (.obj c)).length = ds.resolve.length := by
  simp [TestCases, resolveConfig, h, mapWithIndex_length]

theorem TestCases_data_getElem {α : Type} (env methodName : String)
    (stringify : α → String) (c : StructuredConfig α) (ds : DataSource α)
    (h : c.data = some ds) (k : Nat) :
    (TestCases env methodName stringify (.obj c))[k]? =
      (ds.resolve[k]?).map
        (dataTestCase stringify
          (toUpperStr env ++ ": " ++ mkIdPart c.testCaseId ++ jsOrString c.title methodName)
          (mkTagString c.tags) c.skip (mkTestOptions c.timeout c.description)
          ds.resolve.length k) := by
  simp [TestCases, resolveConfig, h, mapWithIndex_getElem]

/-! Claim theorems. -/

/-- C10: every test-registration decorator (`Test`, `testWithData`,
`conditionalTest`, `testDecorator`, `testMethod`) returns the original
method unchanged; registration only produces the case list, so a direct
call to the decorated method is a call to the undecorated method. -/
theorem decorators_return_original {α Fix ρ : Type} (env methodName : String)
    (stringify : α → String) (config : TestConfig α)
    (twdData : DataSource α) (twdTitle : Option String) (twdTags : Option (List String))
    (twdSkip : Option (α → Bool))
    (ctTitle : Option String) (ctTags : Option (List String)) (ctSkip : Option (Unit → Bool))
    (tdTitle : Option String) (tmTitle : String)
    (target : Fix → Option α → ρ) :
    (Test env methodName stringify config target).2 = target ∧
    (testWithData env methodName stringify twdData twdTitle twdTags twdSkip target).2 = target ∧
    (conditionalTest (α := α) env methodName ctTitle ctTags ctSkip target).2 = target ∧
    (testDecorator (α := α) env methodName tdTitle target).2 = target ∧
    (testMethod (α := α) env methodName tmTitle target).2 = target :=
  ⟨rfl, rfl, rfl, rfl, rfl⟩

/-- C8: evaluating the `screenshot` wrapper at an empty configuration
around a successful method performs no capture at all (the source tests
`configOptions.onSuccess`, which is `undefined`, so the documented
`onSuccess` default of `true` never takes effect); with `onError` set, an
error run captures exactly the error shot and re-throws the original
error unchanged. -/
theorem screenshot_emptyConfig_eval :
    screenshotRun {} "FormPageActions" "fillComplexForm" "ts"
        (Except.ok (0 : Nat) : Except String Nat) = ([], Except.ok 0) ∧
    screenshotRun { onError := some true } "FormPageActions" "fillComplexForm" "ts"
        (Except.error "boom" : Except String Nat) =
      ([⟨"screenshots/FormPageActions-fillComplexForm-ts-error.png", true⟩],
        Except.error "boom") :=
  ⟨rfl, rfl⟩

/-- C6: data-driven registration via `Test` with an empty data set — a
static empty array or a factory returning an empty array — registers zero
cases (and, being a total function, raises no error). -/
theorem Test_emptyData_zeroCases {α : Type} (env methodName : String)
    (stringify : α → String) (c : StructuredConfig α) :
    (c.data = some (.static []) → TestCases env methodName stringify (.obj c) = []) ∧
    (∀ f : Unit → List α, c.data = some (.factory f) → f () = [] →
      TestCases env methodName stringify (.obj c) = []) := by
  constructor
  · intro h
    simp [TestCases, resolveConfig, h, DataSource.resolve, mapWithIndex]
  · intro f h hf
    simp [TestCases, resolveConfig, h, DataSource.resolve, hf, mapWithIndex]

/-- Witness for C6 at a concrete empty static array and a concrete empty
factory. -/
theorem Test_emptyData_zeroCases_witness :
    TestCases "development" "m" (fun s : String => s)
      (.obj { data := some (.static []) }) = [] ∧
    TestCases "development" "m" (fun s : String => s)
      (.obj { data := some (.factory (fun _ => [])) }) = [] :=
  ⟨(Test_emptyData_zeroCases "development" "m" _ _).1 rfl,
   (Test_emptyData_zeroCases "development" "m" _ _).2 _ rfl rfl⟩

/-- C5: `Test` applied to a bare nonempty string registers exactly the
same case set, and returns the same method, as `Test` applied to the
structured configuration with that string as `title` and everything else
absent.  (The nonemptiness proviso reflects `config.title || methodName`:
an empty structured title falls back to the method name.) -/
theorem Test_stringConfig_equiv {α π : Type} (env methodName : String)
    (stringify : α → String) (s : String) (hs : s ≠ "") (target : π) :
    Test env methodName stringify (.str s) target =
      Test env methodName stringify (.obj { title := some s }) target := by
  simp [Test, TestCases, resolveConfig, jsOrString, hs]

/-- Witness for C5 at the spec's example `Test('Z')` versus
`Test({title:'Z'})`. -/
theorem Test_stringConfig_equiv_witness :
    Test "development" "m" (fun x : String => x) (.str "Z")
        (fun (u : Unit) (_ : Option String) => u) =
      Test "development" "m" (fun x : String => x) (.obj { title := some "Z" })
        (fun (u : Unit) (_ : Option String) => u) :=
  Test_stringConfig_equiv "development" "m" _ "Z" (by decide) _

/-- C4 counterexample: `Test` with a static empty data set is a
registration via a registration decorator that produces zero
RegisteredCases, refuting "at least one". -/
theorem Test_atLeastOne_cex :
    (TestCases "development" "testLoginScenarios" (fun s : String => s)
        (.obj { data := some (.static []) })).length = 0 ∧
    ¬ (1 ≤ (TestCases "development" "testLoginScenarios" (fun s : String => s)
        (.obj { data := some (.static []) })).length) := by
  have h0 : TestCases "development" "testLoginScenarios" (fun s : String => s)
      (.obj { data := some (.static []) }) = ([] : List (RegisteredCase String)) := rfl
  rw [h0]
  exact ⟨rfl, by decide⟩

/-- C4 amended: every non-data-driven registration — `Test` with a bare
string or with an object configuration without `data`, `conditionalTest`,
`testDecorator`, `testMethod` — produces exactly one RegisteredCase; a
data-driven registration via `Test` or `testWithData` produces exactly as
many RegisteredCases as the resolved data set has elements (possibly
zero), each independently skippable: its skip status is the registration's
skip configuration evaluated at that case's own data item. -/
theorem registration_case_counts {α : Type} (env methodName : String)
    (stringify : α → String) (c : StructuredConfig α) (s : String)
    (twdData : DataSource α) (twdTitle : Option String) (twdTags : Option (List String))
    (twdSkip : Option (α → Bool))
    (ctTitle : Option String) (ctTags : Option (List String)) (ctSkip : Option (Unit → Bool))
    (tdTitle : Option String) (tmTitle : String) :
    (TestCases env methodName stringify (.str s)).length = 1 ∧
    (c.data = none → (TestCases env methodName stringify (.obj c)).length = 1) ∧
    (∀ ds : DataSource α, c.data = some ds →
      (TestCases env methodName stringify (.obj c)).length = ds.resolve.length ∧
      ∀ (k : Nat) (d : α), ds.resolve[k]? = some d →
        ∃ rc : RegisteredCase α,
          (TestCases env methodName stringify (.obj c))[k]? = some rc ∧
          rc.skipped = shouldSkip c.skip (some d)) ∧
    ((testWithDataCases env methodName stringify twdData twdTitle twdTags twdSkip).length
        = twdData.resolve.length ∧
      ∀ (k : Nat) (d : α), twdData.resolve[k]? = some d →
        ∃ rc : RegisteredCase α,
          (testWithDataCases env methodName stringify twdData twdTitle twdTags twdSkip)[k]? =
            some rc ∧
          rc.skipped = twdShouldSkip twdSkip d) ∧
    (conditionalTestCases (α := α) env methodName ctTitle ctTags ctSkip).length = 1 ∧
    (testDecoratorCases (α := α) env methodName tdTitle).length = 1 ∧
    (testMethodCases (α := α) env methodName tmTitle).length = 1 := by
  refine ⟨rfl, ?_, ?_, ⟨mapWithIndex_length _ _ _, ?_⟩, ?_, rfl, rfl⟩
  · intro h
    rw [TestCases_nodata env methodName stringify c h]
    rfl
  · intro ds h
    refine ⟨TestCases_data_length env methodName stringify c ds h, ?_⟩
    intro k d hd
    refine ⟨dataTestCase stringify
        (toUpperStr env ++ ": " ++ mkIdPart c.testCaseId ++ jsOrString c.title methodName)
        (mkTagString c.tags) c.skip (mkTestOptions c.timeout c.description)
        ds.resolve.length k d,
      ?_, dataTestCase_skipped _ _ _ _ _ _ _ _⟩
    rw [TestCases_data_getElem env methodName stringify c ds h k, hd]
    rfl
  · intro k d hd
    simp only [testWithDataCases, mapWithIndex_getElem, hd, Option.map_some', Nat.zero_add]
    cases twdSkip with
    | none => exact ⟨_, rfl, rfl⟩
    | some p =>
      cases hp : p d with
      | false =>
        refine ⟨_, rfl, ?_⟩
        simp [hp, twdShouldSkip]
      | true =>
        refine ⟨_, rfl, ?_⟩
        simp [hp, twdShouldSkip]
  · cases ctSkip with
    | none => rfl
    | some p => cases hp : p () <;> simp [conditionalTestCases, hp]

/-- Witness for C4's amended theorem at concrete inputs: a bare string, a
config without data, a `Test` config with a two-element data set, a
`testWithData` registration with a two-element data set, and one
registration each via `conditionalTest`, `testDecorator`, `testMethod`. -/
theorem registration_case_counts_witness :
    (TestCases "development" "m" (fun x : String => x) (.str "Z")).length = 1 ∧
    (TestCases "development" "m" (fun x : String => x)
      (.obj ({} : StructuredConfig String))).length = 1 ∧
    (TestCases "development" "m" (fun x : String => x)
      (.obj { data := some (.static ["a", "b"]) })).length = 2 ∧
    (∃ rc : RegisteredCase String,
      (TestCases "development" "m" (fun x : String => x)
        (.obj { data := some (.static ["a", "b"]) }))[1]? = some rc ∧
      rc.skipped = shouldSkip (none : Option (SkipConfig String)) (some "b")) ∧
    (testWithDataCases "development" "m" (fun x : String => x)
      (.static ["a", "b"]) none none none).length = 2 ∧
    (∃ rc : RegisteredCase String,
      (testWithDataCases "development" "m" (fun x : String => x)
        (.static ["a", "b"]) none none none)[1]? = some rc ∧
      rc.skipped = twdShouldSkip (none : Option (String → Bool)) "b") ∧
    (conditionalTestCases (α := String) "development" "m" none none none).length = 1 ∧
    (testDecoratorCases (α := String) "development" "m" none).length = 1 ∧
    (testMethodCases (α := String) "development" "m" "t").length = 1 := by
  have h := registration_case_counts (α := String) "development" "m" (fun x : String => x)
    { data := some (.static ["a", "b"]) } "Z" (.static ["a", "b"]) none none none
    none none none none "t"
  have h2 := h.2.2.1 (.static ["a", "b"]) rfl
  have h4 := h.2.2.2.1
  exact ⟨h.1,
    (registration_case_counts (α := String) "development" "m" (fun x : String => x)
      {} "Z" (.static ["a", "b"]) none none none none none none none "t").2.1 rfl,
    h2.1, h2.2 1 "b" rfl, h4.1, h4.2 1 "b" rfl,
    h.2.2.2.2.1, h.2.2.2.2.2.1, h.2.2.2.2.2.2⟩

/-- C1: a data-driven registration via `Test` (no skip configuration) with
a resolved data set of `n` elements registers exactly `n` cases in data
set order; the case at 0-based index `k` is active, its title embeds
`(k+1)/n` and the (possibly truncated) JSON rendering of the element, and
its invocation thunk calls the original method with the fixture bag
followed by that element. -/
theorem Test_dataDriven_registration {α Fix ρ : Type} (env methodName : String)
    (stringify : α → String) (c : StructuredConfig α) (ds : DataSource α)
    (hdata : c.data = some ds) (hskip : c.skip = none)
    (target : Fix → Option α → ρ) (fixtures : Fix) :
    (TestCases env methodName stringify (.obj c)).length = ds.resolve.length ∧
    ∀ (k : Nat) (d : α), ds.resolve[k]? = some d →
      ∃ rc : RegisteredCase α,
        (TestCases env methodName stringify (.obj c))[k]? = some rc ∧
        rc.skipped = false ∧
        rc.body = CaseBody.callWithData d ∧
        runCase target fixtures rc.body = some (target fixtures (some d)) ∧
        (∃ pre post : String,
          rc.title = pre ++ (toString (k + 1) ++ "/" ++ toString ds.resolve.length) ++ post) ∧
        (∃ pre post : String, rc.title = pre ++ shortDataStr40 (stringify d) ++ post) := by
  refine ⟨TestCases_data_length env methodName stringify c ds hdata, ?_⟩
  intro k d hd
  have hsk : shouldSkip c.skip (some d) = false := by rw [hskip]; rfl
  have hbody := dataTestCase_body_active stringify
    (toUpperStr env ++ ": " ++ mkIdPart c.testCaseId ++ jsOrString c.title methodName)
    (mkTagString c.tags) c.skip (mkTestOptions c.timeout c.description)
    ds.resolve.length k d hsk
  refine ⟨dataTestCase stringify
      (toUpperStr env ++ ": " ++ mkIdPart c.testCaseId ++ jsOrString c.title methodName)
      (mkTagString c.tags) c.skip (mkTestOptions c.timeout c.description)
      ds.resolve.length k d,
    ?_, ?_, hbody, ?_, ?_, ?_⟩
  · rw [TestCases_data_getElem env methodName stringify c ds hdata k, hd]
    rfl
  · rw [dataTestCase_skipped, hskip]
    rfl
  · rw [hbody]
    rfl
  · refine ⟨toUpperStr env ++ ": " ++ mkIdPart c.testCaseId ++
        jsOrString c.title methodName ++ " (",
      "): " ++ shortDataStr40 (stringify d) ++ mkTagString c.tags, ?_⟩
    rw [dataTestCase_title]
    simp [strAppend_assoc]
  · refine ⟨toUpperStr env ++ ": " ++ mkIdPart c.testCaseId ++
        jsOrString c.title methodName ++ " (" ++ toString (k + 1) ++ "/" ++
        toString ds.resolve.length ++ "): ",
      mkTagString c.tags, ?_⟩
    rw [dataTestCase_title]

/-- Witness for C1 at the spec's example: a two-element data set, whose
first case is active, calls the method with the first item, and carries
`1/2` and the item's JSON rendering in its title. -/
theorem Test_dataDriven_registration_witness :
    (TestCases "development" "testLoginScenarios" (fun x : String => x)
        (.obj { title := some "X",
                data := some (.static ["\x7b\"a\":1\x7d", "\x7b\"a\":2\x7d"]) })).length = 2 ∧
    (∃ rc : RegisteredCase String,
      (TestCases "development" "testLoginScenarios" (fun x : String => x)
          (.obj { title := some "X",
                  data := some (.static ["\x7b\"a\":1\x7d", "\x7b\"a\":2\x7d"]) }))[0]? =
        some rc ∧
      rc.skipped = false ∧
      rc.body = CaseBody.callWithData "\x7b\"a\":1\x7d" ∧
      runCase (fun (_ : Unit) (d : Option String) => d) () rc.body =
        some (some "\x7b\"a\":1\x7d") ∧
      (∃ pre post : String,
        rc.title = pre ++ (toString (0 + 1) ++ "/" ++ toString 2) ++ post) ∧
      (∃ pre post : String,
        rc.title = pre ++ shortDataStr40 "\x7b\"a\":1\x7d" ++ post)) := by
  have h := Test_dataDriven_registration "development" "testLoginScenarios"
    (fun x : String => x)
    { title := some "X", data := some (.static ["\x7b\"a\":1\x7d", "\x7b\"a\":2\x7d"]) }
    (.static ["\x7b\"a\":1\x7d", "\x7b\"a\":2\x7d"]) rfl rfl
    (fun (_ : Unit) (d : Option String) => d) ()
  exact ⟨h.1, h.2 0 "\x7b\"a\":1\x7d" rfl⟩

/-- C2: for a skip predicate `p` supplied to `Test`, the registered case is
skipped exactly when `p` evaluates to `true` at registration time —
evaluated at the data item for data-driven cases, at `undefined` (`none`)
otherwise — and the original method body is never executed for a case
registered as skipped. -/
theorem Test_skipPredicate {α Fix ρ : Type} (env methodName : String)
    (stringify : α → String) (c : StructuredConfig α) (p : Option α → Bool)
    (hskip : c.skip = some (.func p))
    (target : Fix → Option α → ρ) (fixtures : Fix) :
    (c.data = none →
      ∃ rc : RegisteredCase α,
        TestCases env methodName stringify (.obj c) = [rc] ∧
        rc.skipped = p none ∧
        (rc.skipped = true → rc.body = CaseBody.skipNoop ∧
          runCase target fixtures rc.body = none) ∧
        (rc.skipped = false →
          runCase target fixtures rc.body = some (target fixtures none))) ∧
    (∀ ds : DataSource α, c.data = some ds →
      ∀ (k : Nat) (d : α), ds.resolve[k]? = some d →
        ∃ rc : RegisteredCase α,
          (TestCases env methodName stringify (.obj c))[k]? = some rc ∧
          rc.skipped = p (some d) ∧
          (rc.skipped = true → rc.body = CaseBody.skipNoop ∧
            runCase target fixtures rc.body = none) ∧
          (rc.skipped = false →
            runCase target fixtures rc.body = some (target fixtures (some d)))) := by
  constructor
  · intro h
    refine ⟨singleTestCase
        (toUpperStr env ++ ": " ++ mkIdPart c.testCaseId ++ jsOrString c.title methodName)
        (mkTagString c.tags) c.skip (mkTestOptions c.timeout c.description),
      TestCases_nodata env methodName stringify c h, ?_, ?_, ?_⟩
    · rw [singleTestCase_skipped, hskip]
      rfl
    · intro hs
      rw [singleTestCase_skipped, hskip] at hs
      have hb := singleTestCase_body_skip
        (toUpperStr env ++ ": " ++ mkIdPart c.testCaseId ++ jsOrString c.title methodName)
        (mkTagString c.tags) c.skip (mkTestOptions c.timeout c.description)
        (by rw [hskip]; exact hs)
      exact ⟨hb, by rw [hb]; rfl⟩
    · intro hs
      rw [singleTestCase_skipped, hskip] at hs
      have hb := singleTestCase_body_active
        (toUpperStr env ++ ": " ++ mkIdPart c.testCaseId ++ jsOrString c.title methodName)
        (mkTagString c.tags) c.skip (mkTestOptions c.timeout c.description)
        (by rw [hskip]; exact hs)
      rw [hb]
      rfl
  · intro ds h k d hd
    refine ⟨dataTestCase stringify
        (toUpperStr env ++ ": " ++ mkIdPart c.testCaseId ++ jsOrString c.title methodName)
        (mkTagString c.tags) c.skip (mkTestOptions c.timeout c.description)
        ds.resolve.length k d,
      ?_, ?_, ?_, ?_⟩
    · rw [TestCases_data_getElem env methodName stringify c ds h k, hd]
      rfl
    · rw [dataTestCase_skipped, hskip]
      rfl
    · intro hs
      rw [dataTestCase_skipped, hskip] at hs
      have hb := dataTestCase_body_skip stringify
        (toUpperStr env ++ ": " ++ mkIdPart c.testCaseId ++ jsOrString c.title methodName)
        (mkTagString c.tags) c.skip (mkTestOptions c.timeout c.description)
        ds.resolve.length k d (by rw [hskip]; exact hs)
      exact ⟨hb, by rw [hb]; rfl⟩
    · intro hs
      rw [dataTestCase_skipped, hskip] at hs
      have hb := dataTestCase_body_active stringify
        (toUpperStr env ++ ": " ++ mkIdPart c.testCaseId ++ jsOrString c.title methodName)
        (mkTagString c.tags) c.skip (mkTestOptions c.timeout c.description)
        ds.resolve.length k d (by rw [hskip]; exact hs)
      rw [hb]
      rfl

/-- Witness for C2: a concrete `Test` registration whose skip predicate is
constantly `true` yields a single skipped case whose thunk never invokes
the method. -/
theorem Test_skipPredicate_witness :
    ∃ rc : RegisteredCase String,
      TestCases "development" "m" (fun x : String => x)
        (.obj { skip := some (.func (fun _ => true)) }) = [rc] ∧
      rc.skipped = true ∧
      rc.body = CaseBody.skipNoop ∧
      runCase (fun (_ : Unit) (d : Option String) => d) () rc.body = none := by
  obtain ⟨rc, hlist, hsk, hskipcase, _⟩ :=
    (Test_skipPredicate "development" "m" (fun x : String => x)
      { skip := some (.func (fun _ => true)) } (fun _ => true) rfl
      (fun (_ : Unit) (d : Option String) => d) ()).1 rfl
  have hs : rc.skipped = true := hsk
  obtain ⟨hbody, hrun⟩ := hskipcase hs
  exact ⟨rc, hlist, hs, hbody, hrun⟩

theorem retryGo_error_last {ρ : Type} (attempts delay : Nat) (op : Nat → Except String ρ)
    (attempt : Nat) (e : String) (he : op attempt = Except.error e) :
    retryGo attempts delay op attempt 1 =
      ⟨1, [], Except.error (retryErrMsg attempts e)⟩ := by
  simp [retryGo, he]

theorem retryGo_error_step {ρ : Type} (attempts delay : Nat) (op : Nat → Except String ρ)
    (attempt f : Nat) (e : String) (he : op attempt = Except.error e) (hf : f ≠ 0) :
    retryGo attempts delay op attempt (f + 1) =
      ⟨(retryGo attempts delay op (attempt + 1) f).invocations + 1,
       delay :: (retryGo attempts delay op (attempt + 1) f).delays,
       (retryGo attempts delay op (attempt + 1) f).outcome⟩ := by
  simp only [retryGo, he]
  rw [if_neg hf]

theorem retryGo_allFail {ρ : Type} (attempts delay : Nat) (op : Nat → Except String ρ)
    (hfail : ∀ k, ∃ e, op k = Except.error e) :
    ∀ (fuel attempt : Nat), 1 ≤ fuel →
      ∃ e, op (attempt + fuel - 1) = Except.error e ∧
        retryGo attempts delay op attempt fuel =
          ⟨fuel, List.replicate (fuel - 1) delay, Except.error (retryErrMsg attempts e)⟩ := by
  intro fuel
  induction fuel with
  | zero => intro attempt h; exact absurd h (by omega)
  | succ f ih =>
    intro attempt _
    obtain ⟨e0, he0⟩ := hfail attempt
    cases f with
    | zero =>
      refine ⟨e0, by simpa using he0, ?_⟩
      simp [retryGo, he0]
    | succ f' =>
      obtain ⟨e, he, hrec⟩ := ih (attempt + 1) (by omega)
      refine ⟨e, ?_, ?_⟩
      · have hidx : attempt + 1 + (f' + 1) - 1 = attempt + (f' + 1 + 1) - 1 := by omega
        rw [← hidx]
        exact he
      · rw [retryGo_error_step attempts delay op attempt (f' + 1) e0 he0
            (Nat.succ_ne_zero f')]
        rw [hrec]
        simp [List.replicate_succ]

/-- C3: for any attempts budget `N ≥ 1`, the retry wrapper around an
operation that throws on every invocation invokes the operation exactly
`N` times, performs `N - 1` inter-attempt delays, and raises a new error
whose message embeds the attempt count and the last underlying error's
message — and which differs from the original error. -/
theorem retry_allFailures_exhausts {ρ : Type} (attempts delay : Nat)
    (op : Nat → Except String ρ) (h1 : 1 ≤ attempts)
    (hfail : ∀ k, ∃ e, op k = Except.error e) :
    (retry attempts delay op).invocations = attempts ∧
    (retry attempts delay op).delays.length = attempts - 1 ∧
    ∃ e, op attempts = Except.error e ∧
      (retry attempts delay op).outcome = Except.error (retryErrMsg attempts e) ∧
      (retry attempts delay op).outcome ≠ Except.error e := by
  obtain ⟨e, he, hgo⟩ := retryGo_allFail attempts delay op hfail attempts 1 h1
  have hidx : 1 + attempts - 1 = attempts := by omega
  rw [hidx] at he
  have hretry : retry attempts delay op =
      ⟨attempts, List.replicate (attempts - 1) delay,
        Except.error (retryErrMsg attempts e)⟩ := hgo
  have hne : retryErrMsg attempts e ≠ e := by
    intro hEq
    have hlen := congrArg String.length hEq
    rw [retryErrMsg, strLength_append, strLength_append, strLength_append] at hlen
    have h20 : ("Method failed after " : String).length = 20 := rfl
    have h23 : (" attempts. Last error: " : String).length = 23 := rfl
    rw [h20, h23] at hlen
    omega
  refine ⟨by rw [hretry], by rw [hretry]; exact List.length_replicate _ _, e, he,
    by rw [hretry], ?_⟩
  rw [hretry]
  intro hbad
  exact hne (Except.error.inj hbad)

/-- Witness for C3: two attempts on an operation that always throws
`boom` yield two invocations, one delay, and the exhaustion error. -/
theorem retry_allFailures_exhausts_witness :
    (retry 2 1000 alwaysBoom).invocations = 2 ∧
    (retry 2 1000 alwaysBoom).delays.length = 2 - 1 ∧
    ∃ e, alwaysBoom 2 = Except.error e ∧
      (retry 2 1000 alwaysBoom).outcome = Except.error (retryErrMsg 2 e) ∧
      (retry 2 1000 alwaysBoom).outcome ≠ Except.error e :=
  retry_allFailures_exhausts 2 1000 alwaysBoom (by omega) (fun _ => ⟨"boom", rfl⟩)

/-- C9: the retry wrapper with `attempts = 3`, `delay = 1000` around an
operation that throws on its first two invocations and succeeds on the
third completes with the operation's result after exactly 3 invocations
and exactly 2 inter-attempt delays of 1000 ms. -/
theorem retry_failTwiceThenSucceeds {ρ : Type} (op : Nat → Except String ρ)
    (e1 e2 : String) (v : ρ)
    (h1 : op 1 = Except.error e1) (h2 : op 2 = Except.error e2)
    (h3 : op 3 = Except.ok v) :
    retry 3 1000 op = ⟨3, [1000, 1000], Except.ok (some v)⟩ := by
  simp [retry, retryGo, h1, h2, h3]

/-- Witness for C9: a concrete operation failing twice then returning 7. -/
theorem retry_failTwiceThenSucceeds_witness :
    retry 3 1000 (fun k => if k = 3 then Except.ok (7 : Nat) else Except.error "boom") =
      ⟨3, [1000, 1000], Except.ok (some 7)⟩ :=
  retry_failTwiceThenSucceeds _ "boom" "boom" 7 rfl rfl rfl

/-- C7 counterexample: a 41-character JSON rendering exceeds `Test`'s
truncation threshold of 40; the rendered title substring has length 40 —
not the threshold plus the 3-character ellipsis marker — and, because the
ellipsis replaces rather than follows the cut, the rendered substring is
not a prefix of the full rendering. -/
theorem truncation_cex :
    cexDataStr.length > 40 ∧
    (shortDataStr40 cexDataStr).length = 40 ∧
    ¬ ((shortDataStr40 cexDataStr).length = 40 + ("..." : String).length) ∧
    ¬ (cexDataStr.data.take (shortDataStr40 cexDataStr).length =
        (shortDataStr40 cexDataStr).data) :=
  ⟨by decide, by decide, by decide, by decide⟩

/-- C7 amended: for a JSON rendering longer than the threshold (40 in
`Test`, 50 in `testWithData`), the rendered title substring is the first
`threshold - 3` characters followed by the 3-character ellipsis marker, so
its total length equals the threshold, and the portion before the ellipsis
is a prefix of the full rendering. -/
theorem truncation_amended (s : String) :
    (s.length > 40 →
      (shortDataStr40 s).length = 40 ∧
      shortDataStr40 s = jsSubstring s 37 ++ "..." ∧
      s.data.take (jsSubstring s 37).length = (jsSubstring s 37).data) ∧
    (s.length > 50 →
      (shortDataStr50 s).length = 50 ∧
      shortDataStr50 s = jsSubstring s 47 ++ "..." ∧
      s.data.take (jsSubstring s 47).length = (jsSubstring s 47).data) := by
  have hsd : s.data.length = s.length := rfl
  constructor
  · intro h
    have hl : (jsSubstring s 37).length = 37 := by
      show (s.data.take 37).length = 37
      rw [List.length_take]
      omega
    refine ⟨?_, ?_, ?_⟩
    · rw [shortDataStr40, if_pos h, strLength_append, hl]
      rfl
    · rw [shortDataStr40, if_pos h]
    · show s.data.take (jsSubstring s 37).length = s.data.take 37
      rw [hl]
  · intro h
    have hl : (jsSubstring s 47).length = 47 := by
      show (s.data.take 47).length = 47
      rw [List.length_take]
      omega
    refine ⟨?_, ?_, ?_⟩
    · rw [shortDataStr50, if_pos h, strLength_append, hl]
      rfl
    · rw [shortDataStr50, if_pos h]
    · show s.data.take (jsSubstring s 47).length = s.data.take 47
      rw [hl]

/-- Witness for C7's amended theorem at a concrete 51-character
rendering, which exceeds both thresholds. -/
theorem truncation_amended_witness :
    ((shortDataStr40 cexDataStr51).length = 40 ∧
      shortDataStr40 cexDataStr51 = jsSubstring cexDataStr51 37 ++ "..." ∧
      cexDataStr51.data.take (jsSubstring cexDataStr51 37).length =
        (jsSubstring cexDataStr51 37).data) ∧
    ((shortDataStr50 cexDataStr51).length = 50 ∧
      shortDataStr50 cexDataStr51 = jsSubstring cexDataStr51 47 ++ "..." ∧
      cexDataStr51.data.take (jsSubstring cexDataStr51 47).length =
        (jsSubstring cexDataStr51 47).data) :=
  ⟨(truncation_amended cexDataStr51).1 (by decide),
   (truncation_amended cexDataStr51).2 (by decide)⟩

end PlaywrightTS
